import Mathlib

/-!
Shallow embedding of routes/system/media_servers.py (spotizerr).

Python dynamic values are modelled by the inductive type Val; dictionaries
are association lists with first-occurrence lookup. External collaborators
(config store, task store, lock store, HTTP client) are passed in as
explicit parameters or oracles. Exceptions are modelled with Except.
-/

set_option autoImplicit false

namespace Spotizerr

/-- Python-like dynamic values: the subset used by the media servers module. -/
inductive Val where
  | none
  | bool (b : Bool)
  | int (n : Int)
  | str (s : String)
  | list (xs : List Val)
  | dict (entries : List (String × Val))
deriving Repr

/-- A Python dict is modelled as an association list (keys unique in real
Python; lookup takes the first occurrence). -/
abbrev Dict := List (String × Val)

/-- Lookup returning the stored value if the key is present. -/
def dfind : Dict → String → Option Val
  | [], _ => Option.none
  | (k0, v0) :: rest, k => if k0 = k then Option.some v0 else dfind rest k

/-- Python d.get(k): None when the key is absent. -/
def dget (d : Dict) (k : String) : Val := (dfind d k).getD Val.none

/-- Python d.get(k, dflt). -/
def dgetD (d : Dict) (k : String) (dflt : Val) : Val := (dfind d k).getD dflt

/-- Python d[k] = v: update in place if present, else append (dict insertion order). -/
def dset : Dict → String → Val → Dict
  | [], k, v => [(k, v)]
  | (k0, v0) :: rest, k, v =>
    if k0 = k then (k, v) :: rest else (k0, v0) :: dset rest k v

/-- Python dict-unpack merge of two dicts, entries of b winning. -/
def dmergeEntries (a b : Dict) : Dict := b.foldl (fun acc kv => dset acc kv.1 kv.2) a

/-- Python truthiness. -/
def truthy : Val → Bool
  | Val.none => false
  | Val.bool b => b
  | Val.int n => n != 0
  | Val.str s => s ≠ ""
  | Val.list xs => ¬ xs.isEmpty
  | Val.dict d => ¬ d.isEmpty

/-- Python a or b. -/
def pyOr (a b : Val) : Val := if truthy a then a else b

/-- Python str(v), as used inside f-strings (only the string case matters for
the URLs the claims inspect). -/
def pyStr : Val → String
  | Val.none => "None"
  | Val.bool true => "True"
  | Val.bool false => "False"
  | Val.int n => toString n
  | Val.str s => s
  | Val.list _ => "<list>"
  | Val.dict _ => "<dict>"

/-- Python s.rstrip(c): drop all trailing occurrences of the character.
Implemented on the character list so that it reduces definitionally. -/
def pyRstrip (s : String) (c : Char) : String :=
  String.mk ((s.data.reverse.dropWhile (fun x => x == c)).reverse)

/-- Python s.strip(): drop leading and trailing whitespace. -/
def pyStrip (s : String) : String :=
  String.mk (((s.data.dropWhile Char.isWhitespace).reverse.dropWhile Char.isWhitespace).reverse)

/-- Python s.startswith(p). -/
def pyStartsWith (s p : String) : Bool := p.data.isPrefixOf s.data

/-- Helper of pySplit: splits the remaining characters, carrying the current
field reversed. -/
def splitCharAux (sep : Char) : List Char → List Char → List (List Char)
  | [], acc => [acc.reverse]
  | c :: rest, acc =>
    if c == sep then acc.reverse :: splitCharAux sep rest []
    else splitCharAux sep rest (c :: acc)

/-- Python s.split(sep) for a one-character separator (empty string gives
one empty field, as in Python). -/
def pySplit (s : String) (sep : Char) : List String :=
  (splitCharAux sep s.data []).map String.mk

/-- The value of a nonempty all-digit character list. -/
def digitsToNat : List Char → Option Nat
  | [] => Option.none
  | l =>
    if l.all Char.isDigit
    then Option.some (l.foldl (fun n c => n * 10 + (c.toNat - '0'.toNat)) 0)
    else Option.none

/-- Python int(s) on strings: strip whitespace, optional sign, digits. -/
def pyParseInt (s : String) : Option Int :=
  match (pyStrip s).data with
  | '-' :: rest => (digitsToNat rest).map (fun n => -(n : Int))
  | '+' :: rest => (digitsToNat rest).map (fun n => (n : Int))
  | l => (digitsToNat l).map (fun n => (n : Int))

/-- Python int(v): coercion to integer, raising (as Except.error) on values
int() rejects. -/
def pyInt : Val → Except String Int
  | Val.int n => Except.ok n
  | Val.bool b => Except.ok (if b then 1 else 0)
  | Val.str s =>
    match pyParseInt s with
    | Option.some n => Except.ok n
    | Option.none => Except.error ("invalid literal for int with base 10: " ++ s)
  | Val.none => Except.error "int argument must not be NoneType"
  | Val.list _ => Except.error "int argument must not be list"
  | Val.dict _ => Except.error "int argument must not be dict"

/-- Modelled from the spec: DEFAULT_MEDIA_SERVER_CONFIG lives in
routes/system/config.py, which is not under src. Spec section 3 gives the
MediaServerConfig shape (jellyfin and plex ServerConfig sub-objects with
enabled, url, apiKey and, for plex, librarySectionIds; intervalSeconds int;
intervalEnabled bool; triggerOnQueueEmpty bool), servers disabled by default
and intervalSeconds defaulting to 3600 as in the validator. -/
def DEFAULT_MEDIA_SERVER_CONFIG : Dict :=
  [("jellyfin", Val.dict
      [("enabled", Val.bool false), ("url", Val.str ""), ("apiKey", Val.str "")]),
   ("plex", Val.dict
      [("enabled", Val.bool false), ("url", Val.str ""), ("apiKey", Val.str ""),
       ("librarySectionIds", Val.str "")]),
   ("intervalSeconds", Val.int 3600),
   ("intervalEnabled", Val.bool false),
   ("triggerOnQueueEmpty", Val.bool false)]

/-- One step of the merge loop in _get_media_server_config:
for k, v in ms.items(): if isinstance(v, dict) and k in ("jellyfin", "plex"):
merged[k] = dict-union of merged[k] and v, else merged[k] = v.
Raises if merged[k] is needed for unpacking but is absent or not a dict. -/
def mergeStep (merged : Dict) (k : String) (v : Val) : Except String Dict :=
  match v with
  | Val.dict vd =>
    if k = "jellyfin" ∨ k = "plex" then
      match dfind merged k with
      | Option.some (Val.dict dk) => Except.ok (dset merged k (Val.dict (dmergeEntries dk vd)))
      | Option.some _ => Except.error "mapping unpacking on non-dict"
      | Option.none => Except.error ("KeyError: " ++ k)
    else Except.ok (dset merged k v)
  | _ => Except.ok (dset merged k v)

/-- The merge loop over all items of the stored mediaServers dict. -/
def mergeAll : Dict → List (String × Val) → Except String Dict
  | merged, [] => Except.ok merged
  | merged, (k, v) :: rest =>
    match mergeStep merged k v with
    | Except.error e => Except.error e
    | Except.ok m => mergeAll m rest

/-- Embedding of _get_media_server_config: reads the stored document,
takes cfg.get("mediaServers") or empty-dict, and shallow-merges it onto
DEFAULT_MEDIA_SERVER_CONFIG. Iterating items() on a truthy non-dict value
raises AttributeError, modelled as Except.error. -/
def _get_media_server_config (cfg : Dict) : Except String Dict :=
  match pyOr (dget cfg "mediaServers") (Val.dict []) with
  | Val.dict ms => mergeAll DEFAULT_MEDIA_SERVER_CONFIG ms
  | _ => Except.error "AttributeError: object has no attribute items"

/-- The per-server check inside _validate_media_server_config for one of
"jellyfin" or "plex": srv = ms_cfg.get(key, empty) or empty; if enabled,
the trimmed url must start with http:// or https:// and apiKey must be
truthy. Except.error models an exception escaping to the outer handler;
Except.ok (some r) is an early return with failure r; Except.ok none passes. -/
def checkServer (ms_cfg : Dict) (server_key : String) :
    Except String (Option (Bool × String)) :=
  match pyOr (dgetD ms_cfg server_key (Val.dict [])) (Val.dict []) with
  | Val.dict srv =>
    if truthy (dget srv "enabled") then
      match pyOr (dget srv "url") (Val.str "") with
      | Val.str u0 =>
        let url := pyStrip u0
        if ¬ (pyStartsWith url "http://" ∨ pyStartsWith url "https://") then
          Except.ok (Option.some (false, server_key ++ " url must start with http:// or https://"))
        else if ¬ truthy (dget srv "apiKey") then
          Except.ok (Option.some (false, server_key ++ " apiKey required when enabled"))
        else Except.ok Option.none
      | _ => Except.error "AttributeError: object has no attribute strip"
    else Except.ok Option.none
  | _ => Except.error "AttributeError: object has no attribute get"

/-- Body of the try-block of _validate_media_server_config. -/
def validateBody (ms_cfg : Dict) : Except String (Bool × String) :=
  match pyInt (dgetD ms_cfg "intervalSeconds" (Val.int 3600)) with
  | Except.error e => Except.error e
  | Except.ok interval_seconds =>
    if interval_seconds < 60 then Except.ok (false, "intervalSeconds must be >= 60")
    else
      match checkServer ms_cfg "jellyfin" with
      | Except.error e => Except.error e
      | Except.ok (Option.some r) => Except.ok r
      | Except.ok Option.none =>
        match checkServer ms_cfg "plex" with
        | Except.error e => Except.error e
        | Except.ok (Option.some r) => Except.ok r
        | Except.ok Option.none => Except.ok (true, "")

/-- Embedding of _validate_media_server_config: the try-body with the
catch-all converting any exception into a validation failure carrying the
exception message. -/
def _validate_media_server_config (ms_cfg : Dict) : Bool × String :=
  match validateBody ms_cfg with
  | Except.ok r => r
  | Except.error e => (false, "Validation error: " ++ e)

/-- Modelled from the spec: the ProgressState enumeration lives in
routes/utils/celery_tasks.py, which is not under src. Spec section 4.4 lists
the active statuses: initializing, processing, downloading, the in-progress
variants, retrying, queued, plus the literal pending; everything else is
terminal. -/
def active_statuses : List String :=
  ["initializing", "processing", "downloading", "progress", "track_progress",
   "real_time", "retrying", "queued", "pending"]

/-- Membership test of a task field in the relevant download types. -/
def is_download_task (t : Dict) : Bool :=
  match dget t "download_type" with
  | Val.str s => s = "track" ∨ s = "album" ∨ s = "playlist"
  | _ => false

/-- Membership test of a task status in the active set. -/
def is_active_status (t : Dict) : Bool :=
  match dget t "status" with
  | Val.str s => active_statuses.contains s
  | _ => false

/-- Embedding of queue_is_empty: filter tasks to the download types, report
empty when none exist or when none has an active status. The task list stands
for the result of get_all_tasks(). -/
def queue_is_empty (tasks : List Dict) : Bool :=
  let download_tasks := tasks.filter is_download_task
  if download_tasks.isEmpty then true
  else
    let blocking := download_tasks.filter is_active_status
    if blocking.isEmpty then true else false

/-- An outbound HTTP request issued to httpx. -/
structure Req where
  method : String
  url : String
deriving Repr, DecidableEq

/-- Python exceptions relevant to this module. -/
inductive PyExc where
  | http (status : Nat) (detail : String)
  | attrError (msg : String)
  | netError (msg : String)
deriving Repr, DecidableEq

/-- The network oracle: the response status for a request, or a transport
level exception (timeout, connection refused, DNS failure). -/
abbrev Net := Req → Except String Nat

/-- Embedding of _trigger_jellyfin_scan: skip when disabled, else POST
base/Library/Refresh with the api key, raising HTTPException 502 on a
status of 400 or more. Returns the issued requests and the outcome. -/
def _trigger_jellyfin_scan (ms_cfg : Dict) (net : Net) : List Req × Except PyExc Dict :=
  match pyOr (dgetD ms_cfg "jellyfin" (Val.dict [])) (Val.dict []) with
  | Val.dict jelly =>
    if ¬ truthy (dget jelly "enabled") then ([], Except.ok [("skipped", Val.bool true)])
    else
      match dget jelly "url" with
      | Val.str u =>
        let base := pyRstrip u '/'
        let url := base ++ "/Library/Refresh?api_key=" ++ pyStr (dget jelly "apiKey")
        let req : Req := ⟨"POST", url⟩
        match net req with
        | Except.error e => ([req], Except.error (PyExc.netError e))
        | Except.ok status =>
          if status ≥ 400 then
            ([req], Except.error (PyExc.http 502 ("Jellyfin scan failed: " ++ toString status)))
          else ([req], Except.ok [("triggered", Val.bool true)])
      | _ => ([], Except.error (PyExc.attrError "object has no attribute rstrip"))
  | _ => ([], Except.error (PyExc.attrError "object has no attribute get"))

/-- The URL of a request to refresh one plex section. -/
def plexReq (base sid : String) : Req :=
  ⟨"GET", base ++ "/library/sections/" ++ sid ++ "/refresh"⟩

/-- The loop of _trigger_plex_scan over the parsed section ids: one GET per
id, collecting per-section statuses, aborting on a transport exception. -/
def plexLoop (base : String) (net : Net) : List String → List Req × Except String (List (String × Nat))
  | [] => ([], Except.ok [])
  | sid :: rest =>
    let req := plexReq base sid
    match net req with
    | Except.error e => ([req], Except.error e)
    | Except.ok st =>
      match plexLoop base net rest with
      | (reqs, Except.error e) => (req :: reqs, Except.error e)
      | (reqs, Except.ok l) => (req :: reqs, Except.ok ((sid, st) :: l))

/-- The first collected result whose status is 400 or more. -/
def firstFailing : List (String × Nat) → Option (String × Nat)
  | [] => Option.none
  | (s, st) :: rest => if st ≥ 400 then Option.some (s, st) else firstFailing rest

/-- The value returned by _trigger_plex_scan on success: triggered plus the
per-section results. -/
def plexSuccess (results : List (String × Nat)) : Dict :=
  [("triggered", Val.bool true),
   ("sections", Val.list (results.map (fun r =>
      Val.dict [("section", Val.str r.1), ("status", Val.int (Int.ofNat r.2))])))]

/-- Parsing of librarySectionIds: comma split, trim, drop empties. -/
def parseSectionIds (raw : String) : List String :=
  ((pySplit raw ',').map pyStrip).filter (fun s => s ≠ "")

/-- Embedding of _trigger_plex_scan: skip when disabled; else GET one
refresh per parsed section id, or a single GET to the all endpoint when no
ids are given; after the loop, raise HTTPException 502 naming the first
result with status 400 or more, else return triggered with the results. -/
def _trigger_plex_scan (ms_cfg : Dict) (net : Net) : List Req × Except PyExc Dict :=
  match pyOr (dgetD ms_cfg "plex" (Val.dict [])) (Val.dict []) with
  | Val.dict plex =>
    if ¬ truthy (dget plex "enabled") then ([], Except.ok [("skipped", Val.bool true)])
    else
      match dget plex "url" with
      | Val.str u =>
        let base := pyRstrip u '/'
        match pyOr (dget plex "librarySectionIds") (Val.str "") with
        | Val.str sections_raw =>
          let section_ids := parseSectionIds sections_raw
          let ids := if section_ids.isEmpty then ["all"] else section_ids
          match plexLoop base net ids with
          | (reqs, Except.error e) => (reqs, Except.error (PyExc.netError e))
          | (reqs, Except.ok results) =>
            match firstFailing results with
            | Option.some (s, st) =>
              (reqs, Except.error (PyExc.http 502
                ("Plex scan failed for section " ++ s ++ " status " ++ toString st)))
            | Option.none => (reqs, Except.ok (plexSuccess results))
        | _ => (([]), Except.error (PyExc.attrError "object has no attribute split"))
      | _ => ([], Except.error (PyExc.attrError "object has no attribute rstrip"))
  | _ => ([], Except.error (PyExc.attrError "object has no attribute get"))

/-- The shared body of the coordinators: jellyfin first, then plex only when
jellyfin returned without raising. -/
def runTriggers (ms_cfg : Dict) (net : Net) : List Req × Except PyExc Dict :=
  match _trigger_jellyfin_scan ms_cfg net with
  | (reqs, Except.error e) => (reqs, Except.error e)
  | (reqs1, Except.ok _) =>
    match _trigger_plex_scan ms_cfg net with
    | (reqs2, r) => (reqs1 ++ reqs2, r)

/-- Embedding of the manual trigger_scan endpoint: no gating, no lock;
HTTPException is re-raised as is, any other exception becomes a 500. The
jellyfin call comes first and a raise there skips the plex call. -/
def trigger_scan (cfg_doc : Dict) (net : Net) : List Req × Except PyExc (Dict × Dict) :=
  match _get_media_server_config cfg_doc with
  | Except.error e => ([], Except.error (PyExc.attrError e))
  | Except.ok ms_cfg =>
    match _trigger_jellyfin_scan ms_cfg net with
    | (reqs, Except.error (PyExc.http st d)) => (reqs, Except.error (PyExc.http st d))
    | (reqs, Except.error _) => (reqs, Except.error (PyExc.http 500 "Media server scan failed"))
    | (reqs1, Except.ok jelly) =>
      match _trigger_plex_scan ms_cfg net with
      | (reqs2, Except.error (PyExc.http st d)) => (reqs1 ++ reqs2, Except.error (PyExc.http st d))
      | (reqs2, Except.error _) => (reqs1 ++ reqs2, Except.error (PyExc.http 500 "Media server scan failed"))
      | (reqs2, Except.ok plex) => (reqs1 ++ reqs2, Except.ok (jelly, plex))

/-- State of the external lock store (redis): whether the lock key is
currently present, and whether the set or delete calls raise (store
unreachable). -/
structure LockStore where
  held : Bool
  setRaises : Bool
  delRaises : Bool
deriving Repr, DecidableEq

/-- Observable operations against the lock store. setnx records the
key and whether the atomic set-if-absent succeeded; setnxRaised records a
store exception during acquisition; del records a delete attempt. -/
inductive LockOp where
  | setnx (key : String) (acquired : Bool)
  | setnxRaised (key : String)
  | del (key : String)
deriving Repr, DecidableEq

/-- The key named by a lock operation. -/
def lockOpKey : LockOp → String
  | LockOp.setnx k _ => k
  | LockOp.setnxRaised k => k
  | LockOp.del k => k

/-- What one automatic entry point did: its boolean return value, the HTTP
requests issued, the lock operations performed, and the final store state. -/
structure ScanOutcome where
  result : Bool
  reqs : List Req
  ops : List LockOp
  store : LockStore
deriving Repr, DecidableEq

/-- True exactly on a non-raising outcome of the trigger body. -/
def isOkB (r : Except PyExc Dict) : Bool :=
  match r with
  | Except.ok _ => true
  | Except.error _ => false

/-- Embedding of trigger_scan_if_queue_empty: gate on triggerOnQueueEmpty,
then on queue_is_empty; acquire the shared lock with set-if-absent (fail-open
when the store raises, clearing the key variable so no delete is attempted);
run both triggers, converting any exception to a false return; finally
attempt to delete the lock when the key variable is still set. -/
def trigger_scan_if_queue_empty (cfg_doc : Dict) (tasks : List Dict)
    (store : LockStore) (net : Net) : Except PyExc ScanOutcome :=
  match _get_media_server_config cfg_doc with
  | Except.error e => Except.error (PyExc.attrError e)
  | Except.ok ms_cfg =>
    if ¬ truthy (dget ms_cfg "triggerOnQueueEmpty") then
      Except.ok ⟨false, [], [], store⟩
    else if ¬ queue_is_empty tasks then
      Except.ok ⟨false, [], [], store⟩
    else
      let key := "media_scan:scan_in_progress"
      if store.setRaises then
        let (reqs, r) := runTriggers ms_cfg net
        Except.ok ⟨isOkB r, reqs, [LockOp.setnxRaised key], store⟩
      else if store.held then
        Except.ok ⟨false, [], [LockOp.setnx key false], store⟩
      else
        let locked : LockStore := { store with held := true }
        let (reqs, r) := runTriggers ms_cfg net
        let final : LockStore := if locked.delRaises then locked else { locked with held := false }
        Except.ok ⟨isOkB r, reqs, [LockOp.setnx key true, LockOp.del key], final⟩

/-- Embedding of trigger_interval_scan: identical shape, gated on
intervalEnabled instead of triggerOnQueueEmpty, same lock key. -/
def trigger_interval_scan (cfg_doc : Dict) (tasks : List Dict)
    (store : LockStore) (net : Net) : Except PyExc ScanOutcome :=
  match _get_media_server_config cfg_doc with
  | Except.error e => Except.error (PyExc.attrError e)
  | Except.ok ms_cfg =>
    if ¬ truthy (dget ms_cfg "intervalEnabled") then
      Except.ok ⟨false, [], [], store⟩
    else if ¬ queue_is_empty tasks then
      Except.ok ⟨false, [], [], store⟩
    else
      let key := "media_scan:scan_in_progress"
      if store.setRaises then
        let (reqs, r) := runTriggers ms_cfg net
        Except.ok ⟨isOkB r, reqs, [LockOp.setnxRaised key], store⟩
      else if store.held then
        Except.ok ⟨false, [], [LockOp.setnx key false], store⟩
      else
        let locked : LockStore := { store with held := true }
        let (reqs, r) := runTriggers ms_cfg net
        let final : LockStore := if locked.delRaises then locked else { locked with held := false }
        Except.ok ⟨isOkB r, reqs, [LockOp.setnx key true, LockOp.del key], final⟩

/-- A stored configuration document with both servers enabled, used as a
concrete input. -/
def cfgBoth : Dict :=
  [("mediaServers", Val.dict
     [("jellyfin", Val.dict
        [("enabled", Val.bool true), ("url", Val.str "http://j"), ("apiKey", Val.str "k")]),
      ("plex", Val.dict
        [("enabled", Val.bool true), ("url", Val.str "http://p"), ("apiKey", Val.str "t"),
         ("librarySectionIds", Val.str "1,2")])])]

/-- A network oracle on which the jellyfin POST fails with 500 and every GET
succeeds. -/
def netJellyfinDown : Net := fun r => if r.method = "POST" then Except.ok 500 else Except.ok 200

/-- A network oracle answering 200 to everything. -/
def netAllOk : Net := fun _ => Except.ok 200

/-- A network oracle answering 500 to everything. -/
def netAllFail : Net := fun _ => Except.ok 500

/-- A stored document enabling the queue-empty trigger only. -/
def cfgQE : Dict := [("mediaServers", Val.dict [("triggerOnQueueEmpty", Val.bool true)])]

/-- A stored document enabling the interval trigger only. -/
def cfgIv : Dict := [("mediaServers", Val.dict [("intervalEnabled", Val.bool true)])]

/-- A lock store with the lock free and no store failures. -/
def freeStore : LockStore := ⟨false, false, false⟩

/-- A lock store with the lock already held. -/
def heldStore : LockStore := ⟨true, false, false⟩

/-- A lock store whose set-if-absent call raises. -/
def raisingStore : LockStore := ⟨false, true, false⟩

/-- A media server config (post merge shape) with only jellyfin enabled. -/
def msJellyOnly : Dict :=
  [("jellyfin", Val.dict
     [("enabled", Val.bool true), ("url", Val.str "http://j"), ("apiKey", Val.str "k")])]

/-- The lock key shared by the two automatic entry points. -/
def SCAN_LOCK_KEY : String := "media_scan:scan_in_progress"

/-- The merged config produced from cfgQE: defaults with the queue-empty
trigger enabled. -/
def msQEMerged : Dict :=
  [("jellyfin", Val.dict
      [("enabled", Val.bool false), ("url", Val.str ""), ("apiKey", Val.str "")]),
   ("plex", Val.dict
      [("enabled", Val.bool false), ("url", Val.str ""), ("apiKey", Val.str ""),
       ("librarySectionIds", Val.str "")]),
   ("intervalSeconds", Val.int 3600),
   ("intervalEnabled", Val.bool false),
   ("triggerOnQueueEmpty", Val.bool true)]

/-- The merged config produced from cfgIv: defaults with the interval
trigger enabled. -/
def msIvMerged : Dict :=
  [("jellyfin", Val.dict
      [("enabled", Val.bool false), ("url", Val.str ""), ("apiKey", Val.str "")]),
   ("plex", Val.dict
      [("enabled", Val.bool false), ("url", Val.str ""), ("apiKey", Val.str ""),
       ("librarySectionIds", Val.str "")]),
   ("intervalSeconds", Val.int 3600),
   ("intervalEnabled", Val.bool true),
   ("triggerOnQueueEmpty", Val.bool false)]

/-- A stored document with the queue-empty trigger on and jellyfin enabled. -/
def cfgQEJelly : Dict :=
  [("mediaServers", Val.dict
     [("triggerOnQueueEmpty", Val.bool true),
      ("jellyfin", Val.dict
        [("enabled", Val.bool true), ("url", Val.str "http://j"), ("apiKey", Val.str "k")])])]

/-- The merged config produced from cfgQEJelly. -/
def msQEJellyMerged : Dict :=
  [("jellyfin", Val.dict
      [("enabled", Val.bool true), ("url", Val.str "http://j"), ("apiKey", Val.str "k")]),
   ("plex", Val.dict
      [("enabled", Val.bool false), ("url", Val.str ""), ("apiKey", Val.str ""),
       ("librarySectionIds", Val.str "")]),
   ("intervalSeconds", Val.int 3600),
   ("intervalEnabled", Val.bool false),
   ("triggerOnQueueEmpty", Val.bool true)]

/-- A media server config with plex enabled and two section ids. -/
def msPlex2 : Dict :=
  [("plex", Val.dict
     [("enabled", Val.bool true), ("url", Val.str "http://p"), ("apiKey", Val.str "t"),
      ("librarySectionIds", Val.str "1,2")])]

/-- True exactly on dict values (Python isinstance(v, dict)). -/
def isDictV : Val → Bool
  | Val.dict _ => true
  | _ => false

/-! Theorems. -/

/-- Normal form of queue_is_empty: true exactly when no filtered download
task is blocking. -/
theorem queue_is_empty_eq (tasks : List Dict) :
    queue_is_empty tasks
      = (((tasks.filter is_download_task).isEmpty) ||
         (((tasks.filter is_download_task).filter is_active_status).isEmpty)) := by
  unfold queue_is_empty
  by_cases h1 : (tasks.filter is_download_task).isEmpty = true
  · rw [if_pos h1, h1, Bool.true_or]
  · rw [if_neg h1, Bool.eq_false_iff.mpr h1, Bool.false_or]
    by_cases h2 : ((tasks.filter is_download_task).filter is_active_status).isEmpty = true
    · rw [if_pos h2, h2]
    · rw [if_neg h2, Bool.eq_false_iff.mpr h2]

/-- C6: queue_is_empty is true when no task has a download type in
track, album, playlist (vacuously); when such tasks exist it is false
exactly when at least one of them has a status in the fixed active set,
every other status counting as terminal. -/
theorem queue_is_empty_characterization (tasks : List Dict) :
    queue_is_empty tasks = true ↔
      ∀ t ∈ tasks, is_download_task t = true → is_active_status t = false := by
  rw [queue_is_empty_eq]
  simp only [Bool.or_eq_true, List.isEmpty_iff, List.filter_eq_nil_iff]
  constructor
  · rintro (h | h) t ht hd
    · exact absurd hd (h t ht)
    · have := h t (List.mem_filter.mpr ⟨ht, hd⟩)
      simpa using this
  · intro h
    right
    intro t ht
    have hm := List.mem_filter.mp ht
    simpa using h t hm.1 hm.2

/-- C10: with enabled truthy but url absent (resp. None), the trigger
clients raise an AttributeError from rstrip on None instead of returning a
result; no request is issued. -/
theorem trigger_clients_raise_on_missing_url :
    _trigger_jellyfin_scan [("jellyfin", Val.dict [("enabled", Val.bool true)])] netAllOk
      = ([], Except.error (PyExc.attrError "object has no attribute rstrip"))
    ∧ _trigger_plex_scan [("plex", Val.dict [("enabled", Val.bool true), ("url", Val.none)])] netAllOk
      = ([], Except.error (PyExc.attrError "object has no attribute rstrip")) :=
  ⟨rfl, rfl⟩

/-- C9 counterexample: a stored document whose mediaServers section is a
truthy non-dict makes _get_media_server_config raise (items on a string)
instead of returning a config. -/
theorem get_media_server_config_raises_cex :
    _get_media_server_config [("mediaServers", Val.str "oops")]
      = Except.error "AttributeError: object has no attribute items" := rfl

/-- C3 counterexample: with both servers enabled, a 500 from the jellyfin
POST aborts trigger_scan before any plex GET is issued: the only request is
the jellyfin one and the plex client is never invoked. -/
theorem jellyfin_failure_blocks_plex_cex :
    trigger_scan cfgBoth netJellyfinDown
      = ([⟨"POST", "http://j/Library/Refresh?api_key=k"⟩],
          Except.error (PyExc.http 502 "Jellyfin scan failed: 500"))
    ∧ (trigger_scan cfgBoth netJellyfinDown).1.filter (fun r => r.method == "GET") = [] :=
  ⟨rfl, rfl⟩

/-- C3 amended: the coordinators run jellyfin first and short-circuit on its
failure: the plex client is invoked exactly when the jellyfin client
returned without raising; on a jellyfin raise the issued requests are the
jellyfin ones only. -/
theorem jellyfin_failure_short_circuits :
    (∀ (ms_cfg : Dict) (net : Net) (reqs : List Req) (e : PyExc),
      _trigger_jellyfin_scan ms_cfg net = (reqs, Except.error e) →
      runTriggers ms_cfg net = (reqs, Except.error e))
    ∧ (∀ (ms_cfg : Dict) (net : Net) (reqs : List Req) (v : Dict),
        _trigger_jellyfin_scan ms_cfg net = (reqs, Except.ok v) →
        runTriggers ms_cfg net
          = (reqs ++ (_trigger_plex_scan ms_cfg net).1, (_trigger_plex_scan ms_cfg net).2))
    ∧ (∀ (cfg_doc ms_cfg : Dict) (net : Net) (reqs : List Req) (e : PyExc),
        _get_media_server_config cfg_doc = Except.ok ms_cfg →
        _trigger_jellyfin_scan ms_cfg net = (reqs, Except.error e) →
        (trigger_scan cfg_doc net).1 = reqs) := by
  refine ⟨?_, ?_, ?_⟩
  · intro ms_cfg net reqs e h
    simp [runTriggers, h]
  · intro ms_cfg net reqs v h
    simp [runTriggers, h]
  · intro cfg_doc ms_cfg net reqs e hms h
    cases e <;> simp [trigger_scan, hms, h]

/-- Witness for the amended C3 theorem at a concrete config and network. -/
theorem jellyfin_failure_short_circuits_witness :
    runTriggers msJellyOnly netAllFail
      = ([⟨"POST", "http://j/Library/Refresh?api_key=k"⟩],
          Except.error (PyExc.http 502 "Jellyfin scan failed: 500")) :=
  jellyfin_failure_short_circuits.1 msJellyOnly netAllFail
    [⟨"POST", "http://j/Library/Refresh?api_key=k"⟩]
    (PyExc.http 502 "Jellyfin scan failed: 500") rfl

/-- Shape of trigger_scan_if_queue_empty once the config read succeeded. -/
theorem tsiqe_eq (cfg_doc : Dict) (tasks : List Dict) (store : LockStore) (net : Net)
    (ms_cfg : Dict) (hms : _get_media_server_config cfg_doc = Except.ok ms_cfg) :
    trigger_scan_if_queue_empty cfg_doc tasks store net =
      Except.ok (
        if ¬ truthy (dget ms_cfg "triggerOnQueueEmpty") then ⟨false, [], [], store⟩
        else if ¬ queue_is_empty tasks then ⟨false, [], [], store⟩
        else if store.setRaises then
          ⟨isOkB (runTriggers ms_cfg net).2, (runTriggers ms_cfg net).1,
            [LockOp.setnxRaised SCAN_LOCK_KEY], store⟩
        else if store.held then ⟨false, [], [LockOp.setnx SCAN_LOCK_KEY false], store⟩
        else
          ⟨isOkB (runTriggers ms_cfg net).2, (runTriggers ms_cfg net).1,
            [LockOp.setnx SCAN_LOCK_KEY true, LockOp.del SCAN_LOCK_KEY],
            if store.delRaises then { store with held := true } else { store with held := false }⟩) := by
  unfold trigger_scan_if_queue_empty
  rw [hms]
  rcases hr : runTriggers ms_cfg net with ⟨reqs, r⟩
  by_cases h1 : truthy (dget ms_cfg "triggerOnQueueEmpty") = true
  · by_cases h2 : queue_is_empty tasks = true
    · by_cases h3 : store.setRaises = true
      · simp [h1, h2, h3, hr, SCAN_LOCK_KEY]
      · by_cases h4 : store.held = true
        · simp [h1, h2, h3, h4, hr, SCAN_LOCK_KEY]
        · by_cases h5 : store.delRaises = true
          · simp [h1, h2, h3, h4, h5, hr, SCAN_LOCK_KEY]
          · simp [h1, h2, h3, h4, h5, hr, SCAN_LOCK_KEY]
    · simp [h1, h2]
  · simp [h1]

/-- Shape of trigger_interval_scan once the config read succeeded. -/
theorem tis_eq (cfg_doc : Dict) (tasks : List Dict) (store : LockStore) (net : Net)
    (ms_cfg : Dict) (hms : _get_media_server_config cfg_doc = Except.ok ms_cfg) :
    trigger_interval_scan cfg_doc tasks store net =
      Except.ok (
        if ¬ truthy (dget ms_cfg "intervalEnabled") then ⟨false, [], [], store⟩
        else if ¬ queue_is_empty tasks then ⟨false, [], [], store⟩
        else if store.setRaises then
          ⟨isOkB (runTriggers ms_cfg net).2, (runTriggers ms_cfg net).1,
            [LockOp.setnxRaised SCAN_LOCK_KEY], store⟩
        else if store.held then ⟨false, [], [LockOp.setnx SCAN_LOCK_KEY false], store⟩
        else
          ⟨isOkB (runTriggers ms_cfg net).2, (runTriggers ms_cfg net).1,
            [LockOp.setnx SCAN_LOCK_KEY true, LockOp.del SCAN_LOCK_KEY],
            if store.delRaises then { store with held := true } else { store with held := false }⟩) := by
  unfold trigger_interval_scan
  rw [hms]
  rcases hr : runTriggers ms_cfg net with ⟨reqs, r⟩
  by_cases h1 : truthy (dget ms_cfg "intervalEnabled") = true
  · by_cases h2 : queue_is_empty tasks = true
    · by_cases h3 : store.setRaises = true
      · simp [h1, h2, h3, hr, SCAN_LOCK_KEY]
      · by_cases h4 : store.held = true
        · simp [h1, h2, h3, h4, hr, SCAN_LOCK_KEY]
        · by_cases h5 : store.delRaises = true
          · simp [h1, h2, h3, h4, h5, hr, SCAN_LOCK_KEY]
          · simp [h1, h2, h3, h4, h5, hr, SCAN_LOCK_KEY]
    · simp [h1, h2]
  · simp [h1]

/-- C1: both automatic entry points return false with no remote trigger call
when their gating flag is falsy, when the queue is not empty, or when the
atomic set-if-absent finds the lock already held; and every lock operation
either of them performs uses the single shared key. -/
theorem auto_gating_and_shared_lock_key :
    (∀ (cfg_doc : Dict) (tasks : List Dict) (store : LockStore) (net : Net)
       (ms_cfg : Dict) (out : ScanOutcome),
      _get_media_server_config cfg_doc = Except.ok ms_cfg →
      trigger_scan_if_queue_empty cfg_doc tasks store net = Except.ok out →
      (truthy (dget ms_cfg "triggerOnQueueEmpty") = false ∨ queue_is_empty tasks = false ∨
        (store.setRaises = false ∧ store.held = true)) →
      out.result = false ∧ out.reqs = [])
    ∧ (∀ (cfg_doc : Dict) (tasks : List Dict) (store : LockStore) (net : Net)
        (ms_cfg : Dict) (out : ScanOutcome),
      _get_media_server_config cfg_doc = Except.ok ms_cfg →
      trigger_interval_scan cfg_doc tasks store net = Except.ok out →
      (truthy (dget ms_cfg "intervalEnabled") = false ∨ queue_is_empty tasks = false ∨
        (store.setRaises = false ∧ store.held = true)) →
      out.result = false ∧ out.reqs = [])
    ∧ (∀ (cfg_doc : Dict) (tasks : List Dict) (store : LockStore) (net : Net)
        (out : ScanOutcome),
      trigger_scan_if_queue_empty cfg_doc tasks store net = Except.ok out →
      ∀ op ∈ out.ops, lockOpKey op = SCAN_LOCK_KEY)
    ∧ (∀ (cfg_doc : Dict) (tasks : List Dict) (store : LockStore) (net : Net)
        (out : ScanOutcome),
      trigger_interval_scan cfg_doc tasks store net = Except.ok out →
      ∀ op ∈ out.ops, lockOpKey op = SCAN_LOCK_KEY) := by
  refine ⟨?_, ?_, ?_, ?_⟩
  · intro cfg_doc tasks store net ms_cfg out hms hrun hgate
    rw [tsiqe_eq cfg_doc tasks store net ms_cfg hms] at hrun
    injection hrun with h
    subst h
    rcases hgate with hg | hg | ⟨hg1, hg2⟩ <;>
      by_cases h1 : truthy (dget ms_cfg "triggerOnQueueEmpty") = true <;>
      by_cases h2 : queue_is_empty tasks = true <;>
      simp_all
  · intro cfg_doc tasks store net ms_cfg out hms hrun hgate
    rw [tis_eq cfg_doc tasks store net ms_cfg hms] at hrun
    injection hrun with h
    subst h
    rcases hgate with hg | hg | ⟨hg1, hg2⟩ <;>
      by_cases h1 : truthy (dget ms_cfg "intervalEnabled") = true <;>
      by_cases h2 : queue_is_empty tasks = true <;>
      simp_all
  · intro cfg_doc tasks store net out hrun op hop
    cases hg : _get_media_server_config cfg_doc with
    | error e =>
      unfold trigger_scan_if_queue_empty at hrun
      rw [hg] at hrun
      exact Except.noConfusion hrun
    | ok ms_cfg =>
      rw [tsiqe_eq cfg_doc tasks store net ms_cfg hg] at hrun
      injection hrun with h
      subst h
      by_cases h1 : truthy (dget ms_cfg "triggerOnQueueEmpty") = true <;>
        by_cases h2 : queue_is_empty tasks = true <;>
        by_cases h3 : store.setRaises = true <;>
        by_cases h4 : store.held = true <;>
        simp_all [lockOpKey] <;>
        rcases hop with hop | hop <;> simp [hop, lockOpKey]
  · intro cfg_doc tasks store net out hrun op hop
    cases hg : _get_media_server_config cfg_doc with
    | error e =>
      unfold trigger_interval_scan at hrun
      rw [hg] at hrun
      exact Except.noConfusion hrun
    | ok ms_cfg =>
      rw [tis_eq cfg_doc tasks store net ms_cfg hg] at hrun
      injection hrun with h
      subst h
      by_cases h1 : truthy (dget ms_cfg "intervalEnabled") = true <;>
        by_cases h2 : queue_is_empty tasks = true <;>
        by_cases h3 : store.setRaises = true <;>
        by_cases h4 : store.held = true <;>
        simp_all [lockOpKey] <;>
        rcases hop with hop | hop <;> simp [hop, lockOpKey]

/-- Witness for C1 at concrete inputs: with the queue-empty flag absent the
entry point returns false with no requests, and when the lock is already
held both flags on still yield false with no requests. -/
theorem auto_gating_witness :
    trigger_scan_if_queue_empty cfgIv [] freeStore netAllOk
      = Except.ok ⟨false, [], [], freeStore⟩ ∧
    (⟨false, [], [], freeStore⟩ : ScanOutcome).result = false ∧
    (⟨false, [], [], freeStore⟩ : ScanOutcome).reqs = [] :=
  ⟨rfl,
   (auto_gating_and_shared_lock_key.1 cfgIv [] freeStore netAllOk msIvMerged
      ⟨false, [], [], freeStore⟩ rfl rfl (Or.inl rfl)).1,
   (auto_gating_and_shared_lock_key.1 cfgIv [] freeStore netAllOk msIvMerged
      ⟨false, [], [], freeStore⟩ rfl rfl (Or.inl rfl)).2⟩

/-- C2: whenever an automatic entry point acquired the lock, the terminal
release is attempted on that execution, and when the delete call does not
itself raise the final store no longer holds the lock. -/
theorem lock_release_discipline :
    (∀ (cfg_doc : Dict) (tasks : List Dict) (store : LockStore) (net : Net)
       (out : ScanOutcome),
      trigger_scan_if_queue_empty cfg_doc tasks store net = Except.ok out →
      LockOp.setnx SCAN_LOCK_KEY true ∈ out.ops →
      LockOp.del SCAN_LOCK_KEY ∈ out.ops ∧
        (store.delRaises = false → out.store.held = false))
    ∧ (∀ (cfg_doc : Dict) (tasks : List Dict) (store : LockStore) (net : Net)
        (out : ScanOutcome),
      trigger_interval_scan cfg_doc tasks store net = Except.ok out →
      LockOp.setnx SCAN_LOCK_KEY true ∈ out.ops →
      LockOp.del SCAN_LOCK_KEY ∈ out.ops ∧
        (store.delRaises = false → out.store.held = false)) := by
  constructor
  · intro cfg_doc tasks store net out hrun hacq
    cases hg : _get_media_server_config cfg_doc with
    | error e =>
      unfold trigger_scan_if_queue_empty at hrun
      rw [hg] at hrun
      exact Except.noConfusion hrun
    | ok ms_cfg =>
      rw [tsiqe_eq cfg_doc tasks store net ms_cfg hg] at hrun
      injection hrun with h
      subst h
      by_cases h1 : truthy (dget ms_cfg "triggerOnQueueEmpty") = true <;>
        by_cases h2 : queue_is_empty tasks = true <;>
        by_cases h3 : store.setRaises = true <;>
        by_cases h4 : store.held = true <;>
        by_cases h5 : store.delRaises = true <;>
        simp_all
  · intro cfg_doc tasks store net out hrun hacq
    cases hg : _get_media_server_config cfg_doc with
    | error e =>
      unfold trigger_interval_scan at hrun
      rw [hg] at hrun
      exact Except.noConfusion hrun
    | ok ms_cfg =>
      rw [tis_eq cfg_doc tasks store net ms_cfg hg] at hrun
      injection hrun with h
      subst h
      by_cases h1 : truthy (dget ms_cfg "intervalEnabled") = true <;>
        by_cases h2 : queue_is_empty tasks = true <;>
        by_cases h3 : store.setRaises = true <;>
        by_cases h4 : store.held = true <;>
        by_cases h5 : store.delRaises = true <;>
        simp_all

/-- Witness for C2: a run that acquires the lock ends with a delete and a
store no longer holding the lock. -/
theorem lock_release_witness :
    trigger_scan_if_queue_empty cfgQE [] freeStore netAllOk
      = Except.ok ⟨true, [], [LockOp.setnx SCAN_LOCK_KEY true, LockOp.del SCAN_LOCK_KEY],
          ⟨false, false, false⟩⟩ ∧
    (LockOp.del SCAN_LOCK_KEY
        ∈ (⟨true, [], [LockOp.setnx SCAN_LOCK_KEY true, LockOp.del SCAN_LOCK_KEY],
            ⟨false, false, false⟩⟩ : ScanOutcome).ops ∧
      (freeStore.delRaises = false →
        (⟨true, [], [LockOp.setnx SCAN_LOCK_KEY true, LockOp.del SCAN_LOCK_KEY],
            ⟨false, false, false⟩⟩ : ScanOutcome).store.held = false)) :=
  ⟨rfl,
   lock_release_discipline.1 cfgQE [] freeStore netAllOk
     ⟨true, [], [LockOp.setnx SCAN_LOCK_KEY true, LockOp.del SCAN_LOCK_KEY],
       ⟨false, false, false⟩⟩ rfl (by decide)⟩

/-- C4: once the config read succeeded, the automatic entry points always
return a value (they never raise), and any exception of the trigger body is
converted into a false return. -/
theorem auto_entry_points_never_raise :
    (∀ (cfg_doc : Dict) (tasks : List Dict) (store : LockStore) (net : Net)
       (ms_cfg : Dict),
      _get_media_server_config cfg_doc = Except.ok ms_cfg →
      (∃ out, trigger_scan_if_queue_empty cfg_doc tasks store net = Except.ok out) ∧
      (∃ out, trigger_interval_scan cfg_doc tasks store net = Except.ok out))
    ∧ (∀ (cfg_doc : Dict) (tasks : List Dict) (store : LockStore) (net : Net)
        (ms_cfg : Dict) (out : ScanOutcome) (e : PyExc),
      _get_media_server_config cfg_doc = Except.ok ms_cfg →
      (runTriggers ms_cfg net).2 = Except.error e →
      trigger_scan_if_queue_empty cfg_doc tasks store net = Except.ok out →
      out.result = false)
    ∧ (∀ (cfg_doc : Dict) (tasks : List Dict) (store : LockStore) (net : Net)
        (ms_cfg : Dict) (out : ScanOutcome) (e : PyExc),
      _get_media_server_config cfg_doc = Except.ok ms_cfg →
      (runTriggers ms_cfg net).2 = Except.error e →
      trigger_interval_scan cfg_doc tasks store net = Except.ok out →
      out.result = false) := by
  refine ⟨?_, ?_, ?_⟩
  · intro cfg_doc tasks store net ms_cfg hms
    exact ⟨⟨_, tsiqe_eq cfg_doc tasks store net ms_cfg hms⟩,
           ⟨_, tis_eq cfg_doc tasks store net ms_cfg hms⟩⟩
  · intro cfg_doc tasks store net ms_cfg out e hms herr hrun
    rw [tsiqe_eq cfg_doc tasks store net ms_cfg hms] at hrun
    injection hrun with h
    subst h
    by_cases h1 : truthy (dget ms_cfg "triggerOnQueueEmpty") = true <;>
      by_cases h2 : queue_is_empty tasks = true <;>
      by_cases h3 : store.setRaises = true <;>
      by_cases h4 : store.held = true <;>
      simp_all [isOkB]
  · intro cfg_doc tasks store net ms_cfg out e hms herr hrun
    rw [tis_eq cfg_doc tasks store net ms_cfg hms] at hrun
    injection hrun with h
    subst h
    by_cases h1 : truthy (dget ms_cfg "intervalEnabled") = true <;>
      by_cases h2 : queue_is_empty tasks = true <;>
      by_cases h3 : store.setRaises = true <;>
      by_cases h4 : store.held = true <;>
      simp_all [isOkB]

/-- Witness for C4: with jellyfin enabled and a 500 from the server the body
raises and the queue-empty entry point returns false rather than raising. -/
theorem auto_never_raise_witness :
    trigger_scan_if_queue_empty cfgQEJelly [] freeStore netAllFail
      = Except.ok ⟨false, [⟨"POST", "http://j/Library/Refresh?api_key=k"⟩],
          [LockOp.setnx SCAN_LOCK_KEY true, LockOp.del SCAN_LOCK_KEY],
          ⟨false, false, false⟩⟩ ∧
    (⟨false, [⟨"POST", "http://j/Library/Refresh?api_key=k"⟩],
        [LockOp.setnx SCAN_LOCK_KEY true, LockOp.del SCAN_LOCK_KEY],
        ⟨false, false, false⟩⟩ : ScanOutcome).result = false :=
  ⟨rfl,
   auto_entry_points_never_raise.2.1 cfgQEJelly [] freeStore netAllFail msQEJellyMerged
     ⟨false, [⟨"POST", "http://j/Library/Refresh?api_key=k"⟩],
       [LockOp.setnx SCAN_LOCK_KEY true, LockOp.del SCAN_LOCK_KEY],
       ⟨false, false, false⟩⟩
     (PyExc.http 502 "Jellyfin scan failed: 500") rfl rfl rfl⟩

/-- C5: when the set-if-absent call itself raises, the automatic entry
points fail open: the trigger body runs exactly as without a lock, its
requests and boolean outcome are returned, and no delete of the lock key is
ever attempted. -/
theorem lock_store_fail_open :
    (∀ (cfg_doc : Dict) (tasks : List Dict) (store : LockStore) (net : Net)
       (ms_cfg : Dict) (out : ScanOutcome),
      _get_media_server_config cfg_doc = Except.ok ms_cfg →
      store.setRaises = true →
      truthy (dget ms_cfg "triggerOnQueueEmpty") = true →
      queue_is_empty tasks = true →
      trigger_scan_if_queue_empty cfg_doc tasks store net = Except.ok out →
      out.reqs = (runTriggers ms_cfg net).1 ∧
      out.result = isOkB (runTriggers ms_cfg net).2 ∧
      out.ops = [LockOp.setnxRaised SCAN_LOCK_KEY] ∧
      (∀ k, LockOp.del k ∉ out.ops))
    ∧ (∀ (cfg_doc : Dict) (tasks : List Dict) (store : LockStore) (net : Net)
        (ms_cfg : Dict) (out : ScanOutcome),
      _get_media_server_config cfg_doc = Except.ok ms_cfg →
      store.setRaises = true →
      truthy (dget ms_cfg "intervalEnabled") = true →
      queue_is_empty tasks = true →
      trigger_interval_scan cfg_doc tasks store net = Except.ok out →
      out.reqs = (runTriggers ms_cfg net).1 ∧
      out.result = isOkB (runTriggers ms_cfg net).2 ∧
      out.ops = [LockOp.setnxRaised SCAN_LOCK_KEY] ∧
      (∀ k, LockOp.del k ∉ out.ops)) := by
  constructor
  · intro cfg_doc tasks store net ms_cfg out hms hraise hflag hqueue hrun
    rw [tsiqe_eq cfg_doc tasks store net ms_cfg hms] at hrun
    injection hrun with h
    subst h
    simp_all
  · intro cfg_doc tasks store net ms_cfg out hms hraise hflag hqueue hrun
    rw [tis_eq cfg_doc tasks store net ms_cfg hms] at hrun
    injection hrun with h
    subst h
    simp_all

/-- Witness for C5: with a raising lock store and both servers disabled the
queue-empty entry point still reports a successful scan, performing only the
failed acquisition and no delete. -/
theorem lock_store_fail_open_witness :
    trigger_scan_if_queue_empty cfgQE [] raisingStore netAllOk
      = Except.ok ⟨true, [], [LockOp.setnxRaised SCAN_LOCK_KEY], raisingStore⟩ ∧
    ((⟨true, [], [LockOp.setnxRaised SCAN_LOCK_KEY], raisingStore⟩ : ScanOutcome).ops
        = [LockOp.setnxRaised SCAN_LOCK_KEY] ∧
      (∀ k, LockOp.del k
        ∉ (⟨true, [], [LockOp.setnxRaised SCAN_LOCK_KEY], raisingStore⟩ : ScanOutcome).ops)) :=
  ⟨rfl,
   (lock_store_fail_open.1 cfgQE [] raisingStore netAllOk msQEMerged
      ⟨true, [], [LockOp.setnxRaised SCAN_LOCK_KEY], raisingStore⟩
      rfl rfl rfl rfl rfl).2.2⟩

/-- When every section request gets a status back, the plex loop issues one
GET per id in order and collects the per-section statuses in order. -/
theorem plexLoop_total (base : String) (net : Net) (stf : String → Nat) :
    ∀ ids : List String,
      (∀ sid ∈ ids, net (plexReq base sid) = Except.ok (stf sid)) →
      plexLoop base net ids
        = (ids.map (plexReq base), Except.ok (ids.map (fun sid => (sid, stf sid)))) := by
  intro ids
  induction ids with
  | nil => intro _; rfl
  | cons sid rest ih =>
    intro h
    have hhd : net (plexReq base sid) = Except.ok (stf sid) := h sid (List.mem_cons_self sid rest)
    have htl := ih (fun s hs => h s (List.mem_cons_of_mem sid hs))
    simp [plexLoop, hhd, htl]

/-- firstFailing finds nothing exactly when every status is below 400. -/
theorem firstFailing_eq_none (l : List (String × Nat)) :
    firstFailing l = Option.none ↔ ∀ p ∈ l, p.2 < 400 := by
  induction l with
  | nil => simp [firstFailing]
  | cons p rest ih =>
    rcases p with ⟨s, st⟩
    by_cases h : st ≥ 400
    · simp [firstFailing, h]
    · simp [firstFailing, h, ih]
      intro _
      omega

/-- C8: the plex client issues zero requests when disabled; with n parsed
section ids it issues exactly the n refresh GETs in order, with no ids a
single GET to the all endpoint; the upstream error is signalled only after
all requests completed, naming the first section with status 400 or more,
and otherwise the per-section statuses are returned. -/
theorem trigger_plex_scan_requests :
    (∀ (ms_cfg : Dict) (net : Net) (plexd : Dict),
      pyOr (dgetD ms_cfg "plex" (Val.dict [])) (Val.dict []) = Val.dict plexd →
      truthy (dget plexd "enabled") = false →
      _trigger_plex_scan ms_cfg net = ([], Except.ok [("skipped", Val.bool true)]))
    ∧ (∀ (ms_cfg : Dict) (net : Net) (plexd : Dict) (u raw : String) (stf : String → Nat),
      pyOr (dgetD ms_cfg "plex" (Val.dict [])) (Val.dict []) = Val.dict plexd →
      truthy (dget plexd "enabled") = true →
      dget plexd "url" = Val.str u →
      pyOr (dget plexd "librarySectionIds") (Val.str "") = Val.str raw →
      parseSectionIds raw ≠ [] →
      (∀ sid ∈ parseSectionIds raw,
        net (plexReq (pyRstrip u '/') sid) = Except.ok (stf sid)) →
      (_trigger_plex_scan ms_cfg net).1
          = (parseSectionIds raw).map (plexReq (pyRstrip u '/')) ∧
      (firstFailing ((parseSectionIds raw).map (fun sid => (sid, stf sid))) = Option.none →
        _trigger_plex_scan ms_cfg net
          = ((parseSectionIds raw).map (plexReq (pyRstrip u '/')),
             Except.ok (plexSuccess ((parseSectionIds raw).map (fun sid => (sid, stf sid)))))) ∧
      (∀ (s : String) (st : Nat),
        firstFailing ((parseSectionIds raw).map (fun sid => (sid, stf sid)))
            = Option.some (s, st) →
        (_trigger_plex_scan ms_cfg net).2
          = Except.error (PyExc.http 502
              ("Plex scan failed for section " ++ s ++ " status " ++ toString st))))
    ∧ (∀ (ms_cfg : Dict) (net : Net) (plexd : Dict) (u raw : String) (st : Nat),
      pyOr (dgetD ms_cfg "plex" (Val.dict [])) (Val.dict []) = Val.dict plexd →
      truthy (dget plexd "enabled") = true →
      dget plexd "url" = Val.str u →
      pyOr (dget plexd "librarySectionIds") (Val.str "") = Val.str raw →
      parseSectionIds raw = [] →
      net (plexReq (pyRstrip u '/') "all") = Except.ok st →
      _trigger_plex_scan ms_cfg net
        = ([plexReq (pyRstrip u '/') "all"],
           if st ≥ 400 then
             Except.error (PyExc.http 502
               ("Plex scan failed for section all status " ++ toString st))
           else Except.ok (plexSuccess [("all", st)]))) := by
  refine ⟨?_, ?_, ?_⟩
  · intro ms_cfg net plexd hplex hen
    unfold _trigger_plex_scan
    rw [hplex]
    simp [hen]
  · intro ms_cfg net plexd u raw stf hplex hen hurl hraw hne hnet
    have hloop := plexLoop_total (pyRstrip u '/') net stf (parseSectionIds raw) hnet
    have hnotE : (parseSectionIds raw).isEmpty = false := by
      cases h : parseSectionIds raw with
      | nil => exact absurd h hne
      | cons a l => rfl
    have hmain : _trigger_plex_scan ms_cfg net
        = ((parseSectionIds raw).map (plexReq (pyRstrip u '/')),
           match firstFailing ((parseSectionIds raw).map (fun sid => (sid, stf sid))) with
           | Option.some (s, st) =>
             Except.error (PyExc.http 502
               ("Plex scan failed for section " ++ s ++ " status " ++ toString st))
           | Option.none =>
             Except.ok (plexSuccess ((parseSectionIds raw).map (fun sid => (sid, stf sid))))) := by
      cases hff : firstFailing ((parseSectionIds raw).map (fun sid => (sid, stf sid))) with
      | none =>
        unfold _trigger_plex_scan
        rw [hplex]
        simp [hen, hurl, hraw, hnotE, hloop, hff]
      | some p =>
        rcases p with ⟨s, st⟩
        unfold _trigger_plex_scan
        rw [hplex]
        simp [hen, hurl, hraw, hnotE, hloop, hff]
    refine ⟨by rw [hmain], ?_, ?_⟩
    · intro hff
      rw [hmain, hff]
    · intro s st hff
      rw [hmain, hff]
  · intro ms_cfg net plexd u raw st hplex hen hurl hraw hempty hnet
    have hloop : plexLoop (pyRstrip u '/') net ["all"]
        = ([plexReq (pyRstrip u '/') "all"], Except.ok [("all", st)]) := by
      simp [plexLoop, hnet]
    unfold _trigger_plex_scan
    rw [hplex]
    by_cases h4 : st ≥ 400
    · simp [hen, hurl, hraw, hempty, hloop, firstFailing, h4]
    · simp [hen, hurl, hraw, hempty, hloop, firstFailing, h4]

/-- Witness for C8: two parsed ids produce exactly two refresh GETs, one per
id in order, and a success result carrying both statuses. -/
theorem trigger_plex_scan_requests_witness :
    _trigger_plex_scan msPlex2 netAllOk
      = ([⟨"GET", "http://p/library/sections/1/refresh"⟩,
          ⟨"GET", "http://p/library/sections/2/refresh"⟩],
         Except.ok (plexSuccess [("1", 200), ("2", 200)])) :=
  (trigger_plex_scan_requests.2.1 msPlex2 netAllOk
      [("enabled", Val.bool true), ("url", Val.str "http://p"), ("apiKey", Val.str "t"),
       ("librarySectionIds", Val.str "1,2")]
      "http://p" "1,2" (fun _ => 200) rfl rfl rfl rfl
      (by decide) (fun _ _ => rfl)).2.1 rfl

/-- C7: the validator evaluates its rules with first failure winning: an
interval below 60 fails with a message mentioning intervalSeconds; an
exception from the int coercion (or from a server check) is caught and
reported as a validation failure carrying the exception message; with the
interval fine, each of jellyfin then plex is checked, an enabled server
failing on a url whose trimmed form does not start with http:// or https://
or on a falsy apiKey; when every rule passes the result is (true, ""). -/
theorem validate_media_server_config_rules :
    (∀ (ms_cfg : Dict) (n : Int),
      pyInt (dgetD ms_cfg "intervalSeconds" (Val.int 3600)) = Except.ok n → n < 60 →
      _validate_media_server_config ms_cfg = (false, "intervalSeconds must be >= 60") ∧
      pyStartsWith (_validate_media_server_config ms_cfg).2 "intervalSeconds" = true)
    ∧ (∀ (ms_cfg : Dict) (e : String),
      pyInt (dgetD ms_cfg "intervalSeconds" (Val.int 3600)) = Except.error e →
      _validate_media_server_config ms_cfg = (false, "Validation error: " ++ e))
    ∧ (∀ (ms_cfg : Dict) (n : Int),
      pyInt (dgetD ms_cfg "intervalSeconds" (Val.int 3600)) = Except.ok n → ¬ n < 60 →
      checkServer ms_cfg "jellyfin" = Except.ok Option.none →
      checkServer ms_cfg "plex" = Except.ok Option.none →
      _validate_media_server_config ms_cfg = (true, ""))
    ∧ (∀ (ms_cfg : Dict) (n : Int) (r : Bool × String),
      pyInt (dgetD ms_cfg "intervalSeconds" (Val.int 3600)) = Except.ok n → ¬ n < 60 →
      checkServer ms_cfg "jellyfin" = Except.ok (Option.some r) →
      _validate_media_server_config ms_cfg = r)
    ∧ (∀ (ms_cfg : Dict) (n : Int) (r : Bool × String),
      pyInt (dgetD ms_cfg "intervalSeconds" (Val.int 3600)) = Except.ok n → ¬ n < 60 →
      checkServer ms_cfg "jellyfin" = Except.ok Option.none →
      checkServer ms_cfg "plex" = Except.ok (Option.some r) →
      _validate_media_server_config ms_cfg = r)
    ∧ (∀ (ms_cfg : Dict) (n : Int) (e : String),
      pyInt (dgetD ms_cfg "intervalSeconds" (Val.int 3600)) = Except.ok n → ¬ n < 60 →
      checkServer ms_cfg "jellyfin" = Except.error e →
      _validate_media_server_config ms_cfg = (false, "Validation error: " ++ e))
    ∧ (∀ (ms_cfg : Dict) (server_key : String) (srv : Dict),
      pyOr (dgetD ms_cfg server_key (Val.dict [])) (Val.dict []) = Val.dict srv →
      truthy (dget srv "enabled") = false →
      checkServer ms_cfg server_key = Except.ok Option.none)
    ∧ (∀ (ms_cfg : Dict) (server_key : String) (srv : Dict) (u : String),
      pyOr (dgetD ms_cfg server_key (Val.dict [])) (Val.dict []) = Val.dict srv →
      truthy (dget srv "enabled") = true →
      pyOr (dget srv "url") (Val.str "") = Val.str u →
      pyStartsWith (pyStrip u) "http://" = false →
      pyStartsWith (pyStrip u) "https://" = false →
      checkServer ms_cfg server_key
        = Except.ok (Option.some
            (false, server_key ++ " url must start with http:// or https://")))
    ∧ (∀ (ms_cfg : Dict) (server_key : String) (srv : Dict) (u : String),
      pyOr (dgetD ms_cfg server_key (Val.dict [])) (Val.dict []) = Val.dict srv →
      truthy (dget srv "enabled") = true →
      pyOr (dget srv "url") (Val.str "") = Val.str u →
      (pyStartsWith (pyStrip u) "http://" = true ∨ pyStartsWith (pyStrip u) "https://" = true) →
      truthy (dget srv "apiKey") = false →
      checkServer ms_cfg server_key
        = Except.ok (Option.some (false, server_key ++ " apiKey required when enabled")))
    ∧ (∀ (ms_cfg : Dict) (server_key : String) (srv : Dict) (u : String),
      pyOr (dgetD ms_cfg server_key (Val.dict [])) (Val.dict []) = Val.dict srv →
      truthy (dget srv "enabled") = true →
      pyOr (dget srv "url") (Val.str "") = Val.str u →
      (pyStartsWith (pyStrip u) "http://" = true ∨ pyStartsWith (pyStrip u) "https://" = true) →
      truthy (dget srv "apiKey") = true →
      checkServer ms_cfg server_key = Except.ok Option.none) := by
  refine ⟨?_, ?_, ?_, ?_, ?_, ?_, ?_, ?_, ?_, ?_⟩
  · intro ms_cfg n hint hlt
    have h : _validate_media_server_config ms_cfg = (false, "intervalSeconds must be >= 60") := by
      simp [_validate_media_server_config, validateBody, hint, hlt]
    exact ⟨h, by rw [h]; decide⟩
  · intro ms_cfg e hint
    simp [_validate_media_server_config, validateBody, hint]
  · intro ms_cfg n hint hge hj hp
    simp [_validate_media_server_config, validateBody, hint, hge, hj, hp]
  · intro ms_cfg n r hint hge hj
    simp [_validate_media_server_config, validateBody, hint, hge, hj]
  · intro ms_cfg n r hint hge hj hp
    simp [_validate_media_server_config, validateBody, hint, hge, hj, hp]
  · intro ms_cfg n e hint hge hj
    simp [_validate_media_server_config, validateBody, hint, hge, hj]
  · intro ms_cfg server_key srv hsrv hen
    unfold checkServer
    rw [hsrv]
    simp [hen]
  · intro ms_cfg server_key srv u hsrv hen hurl hu1 hu2
    unfold checkServer
    rw [hsrv]
    simp [hen, hurl, hu1, hu2]
  · intro ms_cfg server_key srv u hsrv hen hurl hu hkey
    unfold checkServer
    rw [hsrv]
    rcases hu with hu | hu <;> simp [hen, hurl, hu, hkey]
  · intro ms_cfg server_key srv u hsrv hen hurl hu hkey
    unfold checkServer
    rw [hsrv]
    rcases hu with hu | hu <;> simp [hen, hurl, hu, hkey]

/-- Witness for C7: an interval of 30 fails validation with the
intervalSeconds message. -/
theorem validate_media_server_config_rules_witness :
    _validate_media_server_config [("intervalSeconds", Val.int 30)]
      = (false, "intervalSeconds must be >= 60") :=
  (validate_media_server_config_rules.1 [("intervalSeconds", Val.int 30)] 30 rfl
    (by decide)).1

/-- Looking up the key just set finds the new value. -/
theorem dfind_dset_self (d : Dict) (k : String) (v : Val) :
    dfind (dset d k v) k = Option.some v := by
  induction d with
  | nil => simp [dset, dfind]
  | cons kv rest ih =>
    rcases kv with ⟨k0, v0⟩
    by_cases h : k0 = k
    · simp [dset, dfind, h]
    · simp [dset, dfind, h, ih]

/-- Setting one key leaves every other key unchanged. -/
theorem dfind_dset_ne (d : Dict) (k0 : String) (v : Val) (k : String) (h : k0 ≠ k) :
    dfind (dset d k0 v) k = dfind d k := by
  induction d with
  | nil => simp [dset, dfind, h]
  | cons kv rest ih =>
    rcases kv with ⟨k1, v1⟩
    by_cases h1 : k1 = k0
    · subst h1
      simp [dset, dfind, h]
    · simp only [dset, if_neg h1]
      by_cases h2 : k1 = k
      · simp [dfind, h2]
      · simp [dfind, h2, ih]

/-- Characterization of the merge loop from any base whose jellyfin and
plex entries are dicts: it succeeds when the provided keys are distinct,
merges dict values field-level onto those two keys, stores every other
entry wholesale, and leaves absent keys at their base value. -/
theorem mergeAll_char :
    ∀ (ms : List (String × Val)) (m : Dict),
      (ms.map Prod.fst).Nodup →
      (∀ k, k ∈ ms.map Prod.fst → (k = "jellyfin" ∨ k = "plex") →
        ∃ dk, dfind m k = Option.some (Val.dict dk)) →
      ∃ m', mergeAll m ms = Except.ok m' ∧
        (∀ k vd, (k, Val.dict vd) ∈ ms → (k = "jellyfin" ∨ k = "plex") →
          ∀ dk, dfind m k = Option.some (Val.dict dk) →
            dfind m' k = Option.some (Val.dict (dmergeEntries dk vd)))
        ∧ (∀ k v, (k, v) ∈ ms →
            ((k ≠ "jellyfin" ∧ k ≠ "plex") ∨ isDictV v = false) →
            dfind m' k = Option.some v)
        ∧ (∀ k, k ∉ ms.map Prod.fst → dfind m' k = dfind m k) := by
  intro ms
  induction ms with
  | nil =>
    intro m _ _
    exact ⟨m, rfl, by simp, by simp, fun k _ => rfl⟩
  | cons kv rest ih =>
    rcases kv with ⟨k, v⟩
    intro m hnd hbase
    have hmap : ((k, v) :: rest).map Prod.fst = k :: rest.map Prod.fst := rfl
    rw [hmap, List.nodup_cons] at hnd
    obtain ⟨hkrest, hndrest⟩ := hnd
    by_cases hspec : (k = "jellyfin" ∨ k = "plex") ∧ isDictV v = true
    · obtain ⟨dk, hdk⟩ := hbase k (by simp) hspec.1
      obtain ⟨vd, hv⟩ : ∃ vd, v = Val.dict vd := by
        rcases v with _ | b | n | st | xs | vd2
        · exact absurd hspec.2 (by simp [isDictV])
        · exact absurd hspec.2 (by simp [isDictV])
        · exact absurd hspec.2 (by simp [isDictV])
        · exact absurd hspec.2 (by simp [isDictV])
        · exact absurd hspec.2 (by simp [isDictV])
        · exact ⟨vd2, rfl⟩
      subst hv
      have hstep : mergeStep m k (Val.dict vd)
          = Except.ok (dset m k (Val.dict (dmergeEntries dk vd))) := by
        simp [mergeStep, hspec.1, hdk]
      have hbase1 : ∀ k2, k2 ∈ rest.map Prod.fst → (k2 = "jellyfin" ∨ k2 = "plex") →
          ∃ dk2, dfind (dset m k (Val.dict (dmergeEntries dk vd))) k2
            = Option.some (Val.dict dk2) := by
        intro k2 hk2 hs
        have hne : k ≠ k2 := by
          intro he
          exact hkrest (he ▸ hk2)
        rw [dfind_dset_ne m k (Val.dict (dmergeEntries dk vd)) k2 hne]
        exact hbase k2 (by simp [hk2]) hs
      obtain ⟨mf, hall, hc1, hc2, hc3⟩ :=
        ih (dset m k (Val.dict (dmergeEntries dk vd))) hndrest hbase1
      refine ⟨mf, ?_, ?_, ?_, ?_⟩
      · simp [mergeAll, hstep, hall]
      · intro k2 vd2 hmem hs dk2 hdk2
        rcases List.mem_cons.mp hmem with hmem | hmem
        · injection hmem with h1 h2
          subst h1
          injection h2 with h3
          subst h3
          rw [hdk] at hdk2
          injection hdk2 with h4
          injection h4 with h5
          subst h5
          rw [hc3 _ hkrest]
          apply dfind_dset_self
        · have hne : k ≠ k2 := by
            intro he
            subst he
            exact hkrest (List.mem_map_of_mem Prod.fst hmem)
          apply hc1 k2 vd2 hmem hs dk2
          rw [dfind_dset_ne m k (Val.dict (dmergeEntries dk vd)) k2 hne]
          exact hdk2
      · intro k2 v2 hmem hcond
        rcases List.mem_cons.mp hmem with hmem | hmem
        · injection hmem with h1 h2
          subst h1
          subst h2
          rcases hcond with hcond | hcond
          · rcases hspec.1 with hs | hs
            · exact absurd hs hcond.1
            · exact absurd hs hcond.2
          · simp [isDictV] at hcond
        · have hne : k ≠ k2 := by
            intro he
            subst he
            exact hkrest (List.mem_map_of_mem Prod.fst hmem)
          exact hc2 k2 v2 hmem hcond
      · intro k2 hk2
        have h1 : k ≠ k2 := by
          intro he
          subst he
          exact hk2 (by simp)
        have h2 : k2 ∉ rest.map Prod.fst := by
          intro hh
          exact hk2 (by simp [hh])
        rw [hc3 k2 h2]
        exact dfind_dset_ne m k (Val.dict (dmergeEntries dk vd)) k2 h1
    · have hstep : mergeStep m k v = Except.ok (dset m k v) := by
        rcases v with _ | _ | _ | _ | _ | vd <;> simp [mergeStep]
        intro hs
        exact absurd ⟨hs, rfl⟩ hspec
      have hbase1 : ∀ k2, k2 ∈ rest.map Prod.fst → (k2 = "jellyfin" ∨ k2 = "plex") →
          ∃ dk2, dfind (dset m k v) k2 = Option.some (Val.dict dk2) := by
        intro k2 hk2 hs
        have hne : k ≠ k2 := by
          intro he
          exact hkrest (he ▸ hk2)
        rw [dfind_dset_ne m k v k2 hne]
        exact hbase k2 (by simp [hk2]) hs
      obtain ⟨mf, hall, hc1, hc2, hc3⟩ := ih (dset m k v) hndrest hbase1
      refine ⟨mf, ?_, ?_, ?_, ?_⟩
      · simp [mergeAll, hstep, hall]
      · intro k2 vd2 hmem hs dk2 hdk2
        rcases List.mem_cons.mp hmem with hmem | hmem
        · injection hmem with h1 h2
          subst h1
          exact absurd ⟨hs, by rw [← h2, isDictV]⟩ hspec
        · have hne : k ≠ k2 := by
            intro he
            subst he
            exact hkrest (List.mem_map_of_mem Prod.fst hmem)
          apply hc1 k2 vd2 hmem hs dk2
          rw [dfind_dset_ne m k v k2 hne]
          exact hdk2
      · intro k2 v2 hmem hcond
        rcases List.mem_cons.mp hmem with hmem | hmem
        · injection hmem with h1 h2
          subst h1
          subst h2
          rw [hc3 _ hkrest]
          apply dfind_dset_self
        · exact hc2 k2 v2 hmem hcond
      · intro k2 hk2
        have h1 : k ≠ k2 := by
          intro he
          subst he
          exact hk2 (by simp)
        have h2 : k2 ∉ rest.map Prod.fst := by
          intro hh
          exact hk2 (by simp [hh])
        rw [hc3 k2 h2]
        exact dfind_dset_ne m k v k2 h1

/-- C9 amended: _get_media_server_config returns exactly the built-in
defaults whenever the stored mediaServers section is absent or falsy, and on
a dict section (distinct keys, as in a real Python dict) it succeeds with a
merge that is field-level for dict values under the jellyfin and plex keys
and wholesale for every other provided key, keys not provided keeping their
default; a truthy non-dict section, however, raises (see the
counterexample), so the result is not total on arbitrary malformed input. -/
theorem get_media_server_config_defaults_merge :
    (∀ cfg : Dict, truthy (dget cfg "mediaServers") = false →
      _get_media_server_config cfg = Except.ok DEFAULT_MEDIA_SERVER_CONFIG)
    ∧ (∀ (cfg : Dict) (ms : List (String × Val)),
        dget cfg "mediaServers" = Val.dict ms →
        (ms.map Prod.fst).Nodup →
        ∃ merged, _get_media_server_config cfg = Except.ok merged ∧
          (∀ k vd, (k, Val.dict vd) ∈ ms → (k = "jellyfin" ∨ k = "plex") →
            ∀ dk, dfind DEFAULT_MEDIA_SERVER_CONFIG k = Option.some (Val.dict dk) →
              dfind merged k = Option.some (Val.dict (dmergeEntries dk vd)))
          ∧ (∀ k v, (k, v) ∈ ms →
              ((k ≠ "jellyfin" ∧ k ≠ "plex") ∨ isDictV v = false) →
              dfind merged k = Option.some v)
          ∧ (∀ k, k ∉ ms.map Prod.fst →
              dfind merged k = dfind DEFAULT_MEDIA_SERVER_CONFIG k)) := by
  constructor
  · intro cfg h
    simp [_get_media_server_config, pyOr, h, mergeAll]
  · intro cfg ms hms hnd
    rcases ms with _ | ⟨hd, tl⟩
    · refine ⟨DEFAULT_MEDIA_SERVER_CONFIG, ?_, ?_, ?_, ?_⟩
      · simp [_get_media_server_config, pyOr, hms, truthy, mergeAll]
      · intro k vd hmem
        exact absurd hmem (List.not_mem_nil _)
      · intro k v hmem
        exact absurd hmem (List.not_mem_nil _)
      · intro k _
        rfl
    · have hbase : ∀ k, k ∈ (hd :: tl).map Prod.fst → (k = "jellyfin" ∨ k = "plex") →
          ∃ dk, dfind DEFAULT_MEDIA_SERVER_CONFIG k = Option.some (Val.dict dk) := by
        rintro k - (rfl | rfl)
        · exact ⟨_, rfl⟩
        · exact ⟨_, rfl⟩
      obtain ⟨merged, hall, hc1, hc2, hc3⟩ :=
        mergeAll_char (hd :: tl) DEFAULT_MEDIA_SERVER_CONFIG hnd hbase
      have hrun : _get_media_server_config cfg
          = mergeAll DEFAULT_MEDIA_SERVER_CONFIG (hd :: tl) := by
        simp [_get_media_server_config, pyOr, hms, truthy]
      exact ⟨merged, by rw [hrun, hall], hc1, hc2, hc3⟩

/-- Witness for the amended C9 theorem: the empty stored document yields
exactly the defaults. -/
theorem get_media_server_config_defaults_merge_witness :
    _get_media_server_config [] = Except.ok DEFAULT_MEDIA_SERVER_CONFIG :=
  get_media_server_config_defaults_merge.1 [] rfl

end Spotizerr
